import Mathlib

/-!
Verification of the credential lifecycle manager of the GmailService
repository: a shallow embedding of `src/security.py`, `src/auth_service.py`,
`src/models.py` and the secrets endpoints of `src/main.py`, followed by
theorems settling the specification claims.

Conventions of the embedding:
- Python `None` becomes `Option.none`; a Python value that may be `None`
  gets type `Option _`.
- Python truthiness of an optional string (`if x:`) is `truthyOpt`.
- A raised (uncaught) Python exception is the `Except.error` channel.
- The SQLAlchemy session is a list of rows; `db.query(...).filter(...).first()`
  is `List.find?`, committing a mutation of the found row is a keyed `List.map`,
  `db.add` is an append.
- `datetime` values are `PyDateTime`: a wall-clock reading (seconds) plus
  optional tzinfo offset; UTC tzinfo is offset `0`.
- External collaborators (Fernet, google-auth refresh, the OAuth token
  endpoints) are not code of this repository; they are modelled from the
  spec's boundary description (spec sections 4.1 and 6), as marked on each
  such definition.
-/

namespace GmailService

/-- A Python `datetime`: `wallUtc` is the wall-clock reading encoded as
seconds (the reading the fields would denote if interpreted in UTC), and
`tz` is the tzinfo: `none` for a naive datetime, `some off` for an aware
one with a fixed offset of `off` seconds from UTC. -/
structure PyDateTime where
  wallUtc : Int
  tz : Option Int
deriving DecidableEq, Repr

/-- Absolute instant denoted by a datetime; for an aware datetime with
offset `off` the instant is `wallUtc - off`. The code only compares
instants after normalizing naive values to UTC (offset `0`), where the
instant is the wall reading itself. -/
def PyDateTime.instant (d : PyDateTime) : Int := d.wallUtc - (d.tz.getD 0)

/-- Python truthiness of an optional string: `None` and the empty string
are falsy. -/
def truthyOpt : Option String → Bool
  | none => false
  | some s => !(s == "")

/-! ## Encryption Gate (`src/security.py`) -/

/-- Modelled from the spec (section 4.1): the raw `fernet.encrypt` of the
external cryptography library — an injective, string-representable
authenticated encryption. Ciphertexts are marked with a leading tag
character so that decryption of a non-ciphertext fails. -/
def encB (s : String) : String := String.mk ('X' :: s.data)

/-- Modelled from the spec (section 4.1): the raw `fernet.decrypt`;
returns `none` exactly where the real library raises `InvalidToken`
(tamper-evident authenticated encryption). -/
def decB (c : String) : Option String :=
  match c.data with
  | 'X' :: rest => some (String.mk rest)
  | _ => none

/-- Module initialization of `security.py` (lines 5-15): read `FERNET_KEY`
from the environment; if it is unset or empty, raise `ValueError` — the
module fails to import, so no `encrypt`/`decrypt` call can ever run. -/
def securityInit (envKey : Option String) : Except String String :=
  if truthyOpt envKey then Except.ok (envKey.getD "")
  else Except.error "FERNET_KEY environment variable is not set"

/-- Embedding of `security.encrypt` (security.py lines 17-20): a falsy
input (`None` or empty) yields `None`, otherwise the Fernet ciphertext. -/
def encrypt : Option String → Option String
  | none => none
  | some s => if s == "" then none else some (encB s)

/-- Embedding of `security.decrypt` (security.py lines 22-25): a falsy
input yields `None`; otherwise Fernet decryption, whose `InvalidToken`
exception propagates (the `Except.error` channel). -/
def decrypt : Option String → Except Unit (Option String)
  | none => Except.ok none
  | some c =>
    if c == "" then Except.ok none
    else
      match decB c with
      | some s => Except.ok (some s)
      | none => Except.error ()

/-! ## Data model (`src/models.py`) -/

/-- Row of the `gmail_accounts` table (models.py lines 6-14); the
bookkeeping columns `created_at`/`updated_at` are omitted — per the spec
they are not used in logic, and no claim mentions them. Token columns hold
ciphertext; `refresh_token` and `expiry` are nullable. (`access_token` is
declared non-nullable in the schema; the embedding keeps `Option` because
`encrypt` can produce `None` for falsy input.) -/
structure GmailAccount where
  agent_id : String
  access_token : Option String
  refresh_token : Option String
  expiry : Option PyDateTime
deriving DecidableEq, Repr

/-- The credential store: the rows of `gmail_accounts`. -/
abbrev Db := List GmailAccount

/-- In-memory google-auth credentials object as used by auth_service.py:
plaintext tokens plus expiry. -/
structure Creds where
  token : Option String
  refresh_token : Option String
  expiry : Option PyDateTime
deriving DecidableEq, Repr

/-! ## Credential Store upsert (`auth_service.store_credentials`, lines 48-73) -/

/-- Embedding of `store_credentials`: encrypt the access token
unconditionally, encrypt the refresh token only if truthy; insert a new
row when no row has the agent id, else update `access_token` and `expiry`
always and `refresh_token` only when a truthy refresh token was supplied. -/
def store_credentials (db : Db) (agent_id : String) (credentials : Creds) : Db :=
  let encrypted_access := encrypt credentials.token
  let encrypted_refresh :=
    if truthyOpt credentials.refresh_token then encrypt credentials.refresh_token else none
  match db.find? (fun a => a.agent_id == agent_id) with
  | none =>
    db ++ [{ agent_id := agent_id
             access_token := encrypted_access
             refresh_token := encrypted_refresh
             expiry := credentials.expiry }]
  | some _ =>
    db.map (fun a =>
      if a.agent_id == agent_id then
        { a with access_token := encrypted_access
                 refresh_token :=
                   if truthyOpt credentials.refresh_token then encrypted_refresh
                   else a.refresh_token
                 expiry := credentials.expiry }
      else a)

/-! ## Credential Resolver (`auth_service.get_valid_credentials`, lines 75-113) -/

/-- Embedding of auth_service.py lines 86-88: a stored expiry lacking
tzinfo is reinterpreted as UTC (`replace(tzinfo=timezone.utc)`) before any
comparison. -/
def normalizeExpiry : Option PyDateTime → Option PyDateTime
  | none => none
  | some e => if e.tz.isNone then some { e with tz := some 0 } else some e

/-- Modelled from the spec (section 4.4 state machine and section 6
boundary): the external google-auth `Credentials.expired` check — an
expiry of `None` is never expired, otherwise the token is expired when
the expiry instant is not in the future of the current UTC instant. -/
def credExpired (expiry : Option PyDateTime) (now : Int) : Bool :=
  match expiry with
  | none => false
  | some d => decide (d.instant ≤ now)

/-- Modelled from the spec (section 6): response of the identity
provider's refresh-token endpoint — a new access token, possibly a new
refresh token, and an expiry. -/
structure TokenResponse where
  accessToken : String
  refreshToken : Option String
  expiry : Option PyDateTime
deriving DecidableEq, Repr

/-- Outcome of the outbound refresh network call: success with a token
response, or a raised provider/network exception. -/
inductive RefreshOutcome
  | ok (resp : TokenResponse)
  | err
deriving DecidableEq, Repr

/-- The identity provider's refresh endpoint as a function of the refresh
token presented. -/
abbrev Provider := String → RefreshOutcome

/-- Modelled from the spec (section 6): the mutation `creds.refresh(Request())`
performs on success — the access token and expiry are replaced by the
response's, the refresh token is replaced only when the response carries
one, else kept. -/
def refreshedCreds (c : Creds) (resp : TokenResponse) : Creds :=
  { token := some resp.accessToken
    refresh_token := resp.refreshToken.orElse (fun _ => c.refresh_token)
    expiry := resp.expiry }

/-- Result of one `get_valid_credentials` call: the returned value
(`none` embeds Python `return None`), the store contents afterwards, and
the number of refresh calls made against the identity provider. -/
structure ResolveOut where
  result : Option Creds
  db : Db
  refreshCalls : Nat
deriving DecidableEq, Repr

/-- Embedding of `get_valid_credentials`: look up the row, decrypt the
tokens (a decrypt failure propagates as a raised exception), normalize the
expiry to UTC, then the four-state machine — no row returns `None`;
expired with a truthy refresh token refreshes (persisting on success,
returning `None` on failure); expired without one returns `None`;
otherwise the decrypted credential is returned with no store write. -/
def get_valid_credentials (provider : Provider) (now : Int)
    (db : Db) (agent_id : String) : Except Unit ResolveOut :=
  match db.find? (fun a => a.agent_id == agent_id) with
  | none => Except.ok ⟨none, db, 0⟩
  | some account => do
    let access_token ← decrypt account.access_token
    let refresh_token ←
      if truthyOpt account.refresh_token then decrypt account.refresh_token
      else Except.ok none
    let expiry := normalizeExpiry account.expiry
    let creds : Creds := ⟨access_token, refresh_token, expiry⟩
    if credExpired creds.expiry now && truthyOpt creds.refresh_token then
      match provider (creds.refresh_token.getD "") with
      | RefreshOutcome.ok resp =>
        let newCreds := refreshedCreds creds resp
        Except.ok ⟨some newCreds, store_credentials db agent_id newCreds, 1⟩
      | RefreshOutcome.err => Except.ok ⟨none, db, 1⟩
    else if credExpired creds.expiry now && !truthyOpt creds.refresh_token then
      Except.ok ⟨none, db, 0⟩
    else
      Except.ok ⟨some creds, db, 0⟩

/-- Embedding of `exchange_code_with_code` (auth_service.py lines 39-45):
the external token endpoint (modelled from the spec, section 6, as a
function of the code) yields credentials, which are persisted via the
store upsert and returned. -/
def exchange_code_with_code (exchangeEndpoint : String → Creds) (db : Db)
    (agent_id : String) (code : String) : Creds × Db :=
  let credentials := exchangeEndpoint code
  (credentials, store_credentials db agent_id credentials)

/-! ## Secrets store (`src/main.py` lines 473-545, `src/models.py` lines 17-28) -/

/-- A Python value that can appear in the JSON `secret_data` request map. -/
inductive PyValue
  | pstr (s : String)
  | pint (n : Int)
  | pbool (b : Bool)
  | pnone
deriving DecidableEq, Repr

/-- Python `str(v)` on a JSON value. -/
def pyStr : PyValue → String
  | .pstr s => s
  | .pint n => toString n
  | .pbool b => if b then "True" else "False"
  | .pnone => "None"

/-- Python `str(v)` on a stored JSONB field value, which is either a
ciphertext string or null (`str(None)` is the four-letter string None). -/
def pyStrOfStored : Option String → String
  | some s => s
  | none => "None"

/-- Row of the `agent_secrets` table (models.py lines 17-28); the
autoincrement `id` and `updated_at` bookkeeping columns are omitted — no
claim mentions them. `secret_data` values are nullable because
`encrypt` of a falsy string is `None`. -/
structure AgentSecret where
  agent_id : String
  service_name : String
  secret_data : List (String × Option String)
deriving DecidableEq, Repr

/-- The secrets store: the rows of `agent_secrets`. -/
abbrev SecretDb := List AgentSecret

/-- Embedding of `_encrypt_secret_data` (main.py lines 473-475): every
value of the map is coerced with `str` and encrypted. -/
def encrypt_secret_data (data : List (String × PyValue)) : List (String × Option String) :=
  data.map (fun kv => (kv.1, encrypt (some (pyStr kv.2))))

/-- Embedding of `_decrypt_secret_data` (main.py lines 478-480): every
stored value is coerced with `str` and decrypted, entry by entry in
order; a decrypt exception aborts the comprehension and propagates. -/
def decrypt_secret_data : List (String × Option String) →
    Except Unit (List (String × Option String))
  | [] => Except.ok []
  | kv :: rest => do
    let d ← decrypt (some (pyStrOfStored kv.2))
    let ds ← decrypt_secret_data rest
    Except.ok ((kv.1, d) :: ds)

/-- Embedding of `upsert_secret` (main.py lines 485-512): encrypt the
supplied map; replace the whole `secret_data` of the existing
(agent, service) row, or insert a new row. -/
def upsert_secret (db : SecretDb) (agent_id service_name : String)
    (secret_data : List (String × PyValue)) : SecretDb :=
  let encrypted := encrypt_secret_data secret_data
  match db.find? (fun s => s.agent_id == agent_id && s.service_name == service_name) with
  | none => db ++ [{ agent_id := agent_id, service_name := service_name, secret_data := encrypted }]
  | some _ =>
    db.map (fun s =>
      if s.agent_id == agent_id && s.service_name == service_name then
        { s with secret_data := encrypted }
      else s)

/-- Result of a `get_secret` call: the decrypted map, a 404 when no row
matches, or a raised decrypt exception (surfaced as a 500 by the framework). -/
inductive SecretGetResult
  | ok (secret_data : List (String × Option String))
  | notFound
  | raised
deriving DecidableEq, Repr

/-- Embedding of `get_secret` (main.py lines 529-545): look up the
(agent, service) row and return its decrypted `secret_data`. -/
def get_secret (db : SecretDb) (agent_id service_name : String) : SecretGetResult :=
  match db.find? (fun s => s.agent_id == agent_id && s.service_name == service_name) with
  | none => SecretGetResult.notFound
  | some secret =>
    match decrypt_secret_data secret.secret_data with
    | Except.ok d => SecretGetResult.ok d
    | Except.error _ => SecretGetResult.raised

/-! ## Helper lemmas -/

theorem encB_ne_empty (s : String) : encB s ≠ "" := by
  simp [encB]
  intro h
  exact absurd (congrArg String.data h) (by simp)

theorem decB_encB (s : String) : decB (encB s) = some s := by
  simp [decB, encB]

/-- Round trip of the Encryption Gate on a non-empty plaintext. -/
theorem decrypt_encrypt (s : String) (h : s ≠ "") :
    decrypt (encrypt (some s)) = Except.ok (some s) := by
  simp [encrypt, h, decrypt, encB_ne_empty, decB_encB]

/-- Normalization to UTC does not move the denoted instant: a naive value
is reinterpreted at offset 0, where the instant equals the wall reading
already used as its reading. -/
theorem credExpired_normalize (e : PyDateTime) (now : Int) :
    credExpired (normalizeExpiry (some e)) now = decide (e.instant ≤ now) := by
  rcases e with ⟨w, tz⟩
  cases tz <;> simp [normalizeExpiry, credExpired, PyDateTime.instant]

/-- A keyed in-place update commutes with the keyed lookup, provided the
update preserves the key. -/
theorem find?_map_update {α : Type} (p : α → Bool) (g : α → α) (l : List α)
    (hg : ∀ a, p a = true → p (g a) = true) :
    (l.map (fun a => if p a then g a else a)).find? p = (l.find? p).map g := by
  induction l with
  | nil => simp
  | cons x xs ih =>
    by_cases hx : p x = true
    · simp [hx, hg x hx, List.find?_cons_of_pos]
    · have hx' : p x = false := by simpa using hx
      simp [hx', List.find?_cons_of_neg, ih]

/-- Appending a row matching the key behind rows that do not match makes
the keyed lookup find it. -/
theorem find?_append_singleton {α : Type} (p : α → Bool) (l : List α) (x : α)
    (hl : l.find? p = none) (hx : p x = true) :
    (l ++ [x]).find? p = some x := by
  induction l with
  | nil => simp [List.find?_cons_of_pos, hx]
  | cons y ys ih =>
    have hy : p y = false := by
      by_contra hy'
      have : p y = true := by simpa using hy'
      simp [List.find?_cons_of_pos, this] at hl
    have hys : ys.find? p = none := by
      simpa [List.find?_cons_of_neg, hy] using hl
    simp [List.find?_cons_of_neg, hy, ih hys]

/-- Unfolding of `get_valid_credentials` once the row is found and both
decrypts succeed: what remains is the four-state machine on the
normalized expiry. -/
theorem resolve_found (provider : Provider) (now : Int) (db : Db) (aid : String)
    (account : GmailAccount) (atk rt : Option String)
    (hfind : db.find? (fun a => a.agent_id == aid) = some account)
    (hdec : decrypt account.access_token = Except.ok atk)
    (hdr : (if truthyOpt account.refresh_token then decrypt account.refresh_token
            else Except.ok none) = Except.ok rt) :
    get_valid_credentials provider now db aid =
      (if credExpired (normalizeExpiry account.expiry) now && truthyOpt rt then
        match provider (rt.getD "") with
        | RefreshOutcome.ok resp =>
          Except.ok ⟨some (refreshedCreds ⟨atk, rt, normalizeExpiry account.expiry⟩ resp),
            store_credentials db aid (refreshedCreds ⟨atk, rt, normalizeExpiry account.expiry⟩ resp), 1⟩
        | RefreshOutcome.err => Except.ok ⟨none, db, 1⟩
      else if credExpired (normalizeExpiry account.expiry) now && !truthyOpt rt then
        Except.ok ⟨none, db, 0⟩
      else
        Except.ok ⟨some ⟨atk, rt, normalizeExpiry account.expiry⟩, db, 0⟩) := by
  unfold get_valid_credentials
  rw [hfind]
  simp only [bind, Except.bind, hdec]
  split at hdr
  next h =>
    simp only [h, if_true, hdr]
  next h =>
    injection hdr with h2
    subst h2
    simp [h]

/-- Decrypting a just-produced Fernet ciphertext recovers the plaintext. -/
theorem decrypt_encB (s : String) : decrypt (some (encB s)) = Except.ok (some s) := by
  have h := encB_ne_empty s
  simp [decrypt, h, decB_encB]

theorem truthy_of_ne (s : String) (h : s ≠ "") : truthyOpt (some s) = true := by
  simp [truthyOpt, h]

/-! ## Claims -/

/-- Claim C6: for every non-empty string s, decrypt (encrypt s) = s;
encrypt of None or the empty string is None (absence propagated, the
empty string not encrypted); decrypt of None or the empty string is None. -/
theorem claim_C6_roundtrip :
    (∀ s : String, s ≠ "" → decrypt (encrypt (some s)) = Except.ok (some s)) ∧
    encrypt none = none ∧ encrypt (some "") = none ∧
    decrypt none = Except.ok none ∧ decrypt (some "") = Except.ok none :=
  ⟨fun s h => decrypt_encrypt s h, rfl, by simp [encrypt], rfl, by simp [decrypt]⟩

/-- Witness for claim C6 at the non-empty plaintext secret. -/
theorem claim_C6_roundtrip_witness :
    ("secret" : String) ≠ "" ∧
    decrypt (encrypt (some "secret")) = Except.ok (some "secret") :=
  ⟨by decide, claim_C6_roundtrip.1 "secret" (by decide)⟩

/-- Claim C8: if the symmetric encryption key is absent from process
configuration (unset, or the falsy empty string), module initialization
of security.py raises, so the process fails at startup before any
encrypt/decrypt operation can run. -/
theorem claim_C8_failclosed (envKey : Option String) (h : truthyOpt envKey = false) :
    securityInit envKey = Except.error "FERNET_KEY environment variable is not set" := by
  simp [securityInit, h]

/-- Witness for claim C8 at an unset environment variable. -/
theorem claim_C8_failclosed_witness :
    truthyOpt none = false ∧
    securityInit none = Except.error "FERNET_KEY environment variable is not set" :=
  ⟨rfl, claim_C8_failclosed none rfl⟩

/-- Claim C1: for a stored record that is expired with a present refresh
token, the resolver makes exactly one refresh call, persists the
refreshed credential through the store upsert, and returns it; for a
record whose normalized expiry is null or in the future it makes zero
refresh calls and returns the decrypted stored credential unchanged. -/
theorem claim_C1_refresh_once (provider : Provider) (now : Int) (db : Db) (aid : String) :
    (∀ account atk r resp,
      db.find? (fun a => a.agent_id == aid) = some account →
      decrypt account.access_token = Except.ok atk →
      truthyOpt account.refresh_token = true →
      decrypt account.refresh_token = Except.ok (some r) →
      r ≠ "" →
      credExpired (normalizeExpiry account.expiry) now = true →
      provider r = RefreshOutcome.ok resp →
      get_valid_credentials provider now db aid =
        Except.ok ⟨some (refreshedCreds ⟨atk, some r, normalizeExpiry account.expiry⟩ resp),
          store_credentials db aid
            (refreshedCreds ⟨atk, some r, normalizeExpiry account.expiry⟩ resp),
          1⟩) ∧
    (∀ account atk rt,
      db.find? (fun a => a.agent_id == aid) = some account →
      decrypt account.access_token = Except.ok atk →
      (if truthyOpt account.refresh_token then decrypt account.refresh_token
       else Except.ok none) = Except.ok rt →
      credExpired (normalizeExpiry account.expiry) now = false →
      get_valid_credentials provider now db aid =
        Except.ok ⟨some ⟨atk, rt, normalizeExpiry account.expiry⟩, db, 0⟩) := by
  constructor
  · intro account atk r resp hfind hdec ht hdr hr hexp hprov
    have hdr2 : (if truthyOpt account.refresh_token then decrypt account.refresh_token
        else Except.ok none) = Except.ok (some r) := by rw [if_pos ht]; exact hdr
    rw [resolve_found provider now db aid account atk (some r) hfind hdec hdr2]
    simp [hexp, truthy_of_ne r hr, hprov]
  · intro account atk rt hfind hdec hdr hexp
    rw [resolve_found provider now db aid account atk rt hfind hdec hdr]
    simp [hexp]

/-- Witness for claim C1: a concrete expired-and-refreshable resolve (one
refresh, persisted) and a concrete still-valid resolve (zero refreshes,
store untouched). -/
theorem claim_C1_refresh_once_witness :
    get_valid_credentials (fun _ => RefreshOutcome.ok ⟨"n", none, some ⟨500, some 0⟩⟩) 100
        [⟨"a", some (encB "t"), some (encB "r"), some ⟨10, some 0⟩⟩] "a" =
      Except.ok ⟨some (refreshedCreds ⟨some "t", some "r", normalizeExpiry (some ⟨10, some 0⟩)⟩
            ⟨"n", none, some ⟨500, some 0⟩⟩),
        store_credentials [⟨"a", some (encB "t"), some (encB "r"), some ⟨10, some 0⟩⟩] "a"
          (refreshedCreds ⟨some "t", some "r", normalizeExpiry (some ⟨10, some 0⟩)⟩
            ⟨"n", none, some ⟨500, some 0⟩⟩),
        1⟩ ∧
    get_valid_credentials (fun _ => RefreshOutcome.ok ⟨"n", none, some ⟨500, some 0⟩⟩) 100
        [⟨"a", some (encB "t"), some (encB "r"), some ⟨200, some 0⟩⟩] "a" =
      Except.ok ⟨some ⟨some "t", some "r", normalizeExpiry (some ⟨200, some 0⟩)⟩,
        [⟨"a", some (encB "t"), some (encB "r"), some ⟨200, some 0⟩⟩], 0⟩ :=
  ⟨(claim_C1_refresh_once _ 100 _ "a").1
      ⟨"a", some (encB "t"), some (encB "r"), some ⟨10, some 0⟩⟩ (some "t") "r"
      ⟨"n", none, some ⟨500, some 0⟩⟩ (by decide) (decrypt_encB "t")
      (by simp [truthyOpt, encB_ne_empty]) (decrypt_encB "r") (by decide) (by decide) rfl,
   (claim_C1_refresh_once _ 100 _ "a").2
      ⟨"a", some (encB "t"), some (encB "r"), some ⟨200, some 0⟩⟩ (some "t") (some "r")
      (by decide) (decrypt_encB "t")
      (by simp [truthyOpt, encB_ne_empty, decrypt_encB]) (by decide)⟩

/-- Claim C3: a stored expiry lacking tzinfo is normalized to UTC before
any comparison; a naive persisted expiry of now minus one second is then
classified as expired, and the resolver takes an expired branch for it
(here the reauth-required one). The embedding has no host-timezone input
at all — the code consults only UTC — so the classification cannot
depend on a host offset. -/
theorem claim_C3_tz (now : Int) (e : PyDateTime) (h1 : e.tz = none) (h2 : e.wallUtc = now - 1) :
    normalizeExpiry (some e) = some ⟨e.wallUtc, some 0⟩ ∧
    credExpired (normalizeExpiry (some e)) now = true ∧
    (∀ provider db aid account atk,
      db.find? (fun a => a.agent_id == aid) = some account →
      account.expiry = some e →
      decrypt account.access_token = Except.ok atk →
      account.refresh_token = none →
      get_valid_credentials provider now db aid = Except.ok ⟨none, db, 0⟩) := by
  have hinst : e.instant = now - 1 := by simp [PyDateTime.instant, h1, h2]
  have hexp : credExpired (normalizeExpiry (some e)) now = true := by
    rw [credExpired_normalize, hinst]
    simp only [decide_eq_true_eq]
    omega
  refine ⟨?_, hexp, ?_⟩
  · rcases e with ⟨w, tz⟩
    cases h1
    simp [normalizeExpiry]
  · intro provider db aid account atk hfind hexpiry hdec hrt
    have hdr : (if truthyOpt account.refresh_token then decrypt account.refresh_token
        else Except.ok none) = Except.ok none := by simp [hrt, truthyOpt]
    rw [resolve_found provider now db aid account atk none hfind hdec hdr]
    rw [hexpiry]
    simp [hexp, truthyOpt]

/-- Witness for claim C3 at a naive expiry one second before now. -/
theorem claim_C3_tz_witness :
    normalizeExpiry (some ⟨99, none⟩) = some ⟨99, some 0⟩ ∧
    credExpired (normalizeExpiry (some ⟨99, none⟩)) 100 = true ∧
    get_valid_credentials (fun _ => RefreshOutcome.err) 100
        [⟨"a", some (encB "t"), none, some ⟨99, none⟩⟩] "a" =
      Except.ok ⟨none, [⟨"a", some (encB "t"), none, some ⟨99, none⟩⟩], 0⟩ :=
  ⟨(claim_C3_tz 100 ⟨99, none⟩ rfl (by decide)).1,
   (claim_C3_tz 100 ⟨99, none⟩ rfl (by decide)).2.1,
   (claim_C3_tz 100 ⟨99, none⟩ rfl (by decide)).2.2 _ _ "a"
      ⟨"a", some (encB "t"), none, some ⟨99, none⟩⟩ (some "t")
      (by decide) rfl (decrypt_encB "t") rfl⟩

/-- Claim C4: when the record is expired and refreshable but the provider
refresh call raises, the resolver persists nothing (the store is exactly
as before), makes its single refresh call, and returns the definitive
credential-unavailable result None instead of propagating the raw
exception (the Except.error channel). -/
theorem claim_C4_refresh_failure (provider : Provider) (now : Int) (db : Db) (aid : String)
    (account : GmailAccount) (atk : Option String) (r : String)
    (hfind : db.find? (fun a => a.agent_id == aid) = some account)
    (hdec : decrypt account.access_token = Except.ok atk)
    (ht : truthyOpt account.refresh_token = true)
    (hdr : decrypt account.refresh_token = Except.ok (some r))
    (hr : r ≠ "")
    (hexp : credExpired (normalizeExpiry account.expiry) now = true)
    (hprov : provider r = RefreshOutcome.err) :
    get_valid_credentials provider now db aid = Except.ok ⟨none, db, 1⟩ := by
  have hdr2 : (if truthyOpt account.refresh_token then decrypt account.refresh_token
      else Except.ok none) = Except.ok (some r) := by rw [if_pos ht]; exact hdr
  rw [resolve_found provider now db aid account atk (some r) hfind hdec hdr2]
  simp [hexp, truthy_of_ne r hr, hprov]

/-- Witness for claim C4 at a concrete expired record and an erroring
provider. -/
theorem claim_C4_refresh_failure_witness :
    get_valid_credentials (fun _ => RefreshOutcome.err) 100
        [⟨"a", some (encB "t"), some (encB "r"), some ⟨10, some 0⟩⟩] "a" =
      Except.ok ⟨none, [⟨"a", some (encB "t"), some (encB "r"), some ⟨10, some 0⟩⟩], 1⟩ :=
  claim_C4_refresh_failure _ 100 _ "a"
    ⟨"a", some (encB "t"), some (encB "r"), some ⟨10, some 0⟩⟩ (some "t") "r"
    (by decide) (decrypt_encB "t")
    (by simp [truthyOpt, encB_ne_empty]) (decrypt_encB "r") (by decide) (by decide) rfl

/-- Claim C5 as amended: with no record the resolver returns None with
zero refresh calls, and with an expired record lacking a refresh token it
also returns None with zero refresh calls and an untouched store; the two
failures surface as the same None outcome (they differ only in log
messages), not as distinct outcomes. -/
theorem claim_C5_failures (provider : Provider) (now : Int) (db : Db) (aid : String) :
    (db.find? (fun a => a.agent_id == aid) = none →
      get_valid_credentials provider now db aid = Except.ok ⟨none, db, 0⟩) ∧
    (∀ account atk,
      db.find? (fun a => a.agent_id == aid) = some account →
      decrypt account.access_token = Except.ok atk →
      account.refresh_token = none →
      credExpired (normalizeExpiry account.expiry) now = true →
      get_valid_credentials provider now db aid = Except.ok ⟨none, db, 0⟩) := by
  constructor
  · intro hfind
    unfold get_valid_credentials
    rw [hfind]
  · intro account atk hfind hdec hrt hexp
    have hdr : (if truthyOpt account.refresh_token then decrypt account.refresh_token
        else Except.ok none) = Except.ok none := by simp [hrt, truthyOpt]
    rw [resolve_found provider now db aid account atk none hfind hdec hdr]
    simp [hexp, truthyOpt]

/-- Counterexample to claim C5 as stated: at concrete inputs, the
no-record failure and the expired-without-refresh-token failure are the
very same surfaced outcome — both calls return None (with zero refresh
calls), so the re-authentication-required failure is not distinct from
the not-connected one. -/
theorem claim_C5_counterexample :
    get_valid_credentials (fun _ => RefreshOutcome.err) 100 [] "a" =
      Except.ok ⟨none, [], 0⟩ ∧
    get_valid_credentials (fun _ => RefreshOutcome.err) 100
        [⟨"a", some (encB "t"), none, some ⟨0, some 0⟩⟩] "a" =
      Except.ok ⟨none, [⟨"a", some (encB "t"), none, some ⟨0, some 0⟩⟩], 0⟩ ∧
    (get_valid_credentials (fun _ => RefreshOutcome.err) 100 [] "a").map ResolveOut.result =
      (get_valid_credentials (fun _ => RefreshOutcome.err) 100
        [⟨"a", some (encB "t"), none, some ⟨0, some 0⟩⟩] "a").map ResolveOut.result :=
  ⟨rfl, rfl, rfl⟩

/-- Witness for claim C5 (amended) at a concrete empty store and a
concrete expired record without refresh token. -/
theorem claim_C5_failures_witness :
    get_valid_credentials (fun _ => RefreshOutcome.err) 7 [] "b" =
      Except.ok ⟨none, [], 0⟩ ∧
    get_valid_credentials (fun _ => RefreshOutcome.err) 7
        [⟨"b", some (encB "t"), none, some ⟨1, some 0⟩⟩] "b" =
      Except.ok ⟨none, [⟨"b", some (encB "t"), none, some ⟨1, some 0⟩⟩], 0⟩ :=
  ⟨(claim_C5_failures _ 7 [] "b").1 rfl,
   (claim_C5_failures _ 7 _ "b").2
      ⟨"b", some (encB "t"), none, some ⟨1, some 0⟩⟩ (some "t")
      (by decide) (decrypt_encB "t") rfl (by decide)⟩

/-- Claim C10: when the found record's normalized expiry is null or in
the future, the resolver performs no store write — the store after the
call is exactly the store before — and makes zero refresh calls. -/
theorem claim_C10_no_write (provider : Provider) (now : Int) (db : Db) (aid : String)
    (account : GmailAccount) (atk rt : Option String)
    (hfind : db.find? (fun a => a.agent_id == aid) = some account)
    (hdec : decrypt account.access_token = Except.ok atk)
    (hdr : (if truthyOpt account.refresh_token then decrypt account.refresh_token
            else Except.ok none) = Except.ok rt)
    (hexp : credExpired (normalizeExpiry account.expiry) now = false) :
    get_valid_credentials provider now db aid =
      Except.ok ⟨some ⟨atk, rt, normalizeExpiry account.expiry⟩, db, 0⟩ := by
  rw [resolve_found provider now db aid account atk rt hfind hdec hdr]
  simp [hexp]

/-- Witness for claim C10 at a concrete still-valid record. -/
theorem claim_C10_no_write_witness :
    get_valid_credentials (fun _ => RefreshOutcome.err) 100
        [⟨"a", some (encB "t"), some (encB "r"), some ⟨200, some 0⟩⟩] "a" =
      Except.ok ⟨some ⟨some "t", some "r", normalizeExpiry (some ⟨200, some 0⟩)⟩,
        [⟨"a", some (encB "t"), some (encB "r"), some ⟨200, some 0⟩⟩], 0⟩ :=
  claim_C10_no_write _ 100 _ "a"
    ⟨"a", some (encB "t"), some (encB "r"), some ⟨200, some 0⟩⟩ (some "t") (some "r")
    (by decide) (decrypt_encB "t")
    (by simp [truthyOpt, encB_ne_empty, decrypt_encB]) (by decide)

/-- Claim C2 as amended: an upsert for an absent agent id inserts a new
record; for a present one it always overwrites access_token and expiry,
and overwrites refresh_token only when the supplied refresh token is
non-null and non-empty (truthy) — a null or empty supplied refresh token
leaves the previously stored refresh_token unchanged, a truthy one
replaces it with its encryption. -/
theorem claim_C2_upsert (db : Db) (aid : String) (c : Creds) :
    (db.find? (fun a => a.agent_id == aid) = none →
      store_credentials db aid c =
        db ++ [⟨aid, encrypt c.token,
          if truthyOpt c.refresh_token then encrypt c.refresh_token else none, c.expiry⟩]) ∧
    (∀ account,
      db.find? (fun a => a.agent_id == aid) = some account →
      (store_credentials db aid c).find? (fun a => a.agent_id == aid) =
        some ⟨account.agent_id, encrypt c.token,
          if truthyOpt c.refresh_token then encrypt c.refresh_token else account.refresh_token,
          c.expiry⟩) := by
  constructor
  · intro hfind
    unfold store_credentials
    rw [hfind]
  · intro account hfind
    unfold store_credentials
    rw [hfind]
    rw [find?_map_update (fun a => a.agent_id == aid)
      (fun a => ⟨a.agent_id, encrypt c.token,
        if truthyOpt c.refresh_token then
          (if truthyOpt c.refresh_token then encrypt c.refresh_token else none)
        else a.refresh_token, c.expiry⟩) db (fun a ha => ha)]
    rw [hfind]
    by_cases ht : truthyOpt c.refresh_token = true <;> simp [ht]

/-- Counterexample to claim C2 as stated: the supplied refresh token can
be non-null yet empty, and then the stored refresh token is NOT replaced
— upserting over a record holding the encryption of R with the non-null
refresh token given by the empty string leaves the stored ciphertext of
R in place (still decrypting to R), instead of replacing it. -/
theorem claim_C2_counterexample :
    store_credentials [⟨"a", some (encB "t"), some (encB "R"), none⟩] "a"
        ⟨some "t2", some "", none⟩ =
      [⟨"a", some (encB "t2"), some (encB "R"), none⟩] ∧
    some (encB "R") ≠ encrypt (some "") ∧
    decrypt (some (encB "R")) = Except.ok (some "R") ∧ ("R" : String) ≠ "" :=
  ⟨rfl, by simp [encrypt], decrypt_encB "R", by decide⟩

/-- Witness for claim C2 (amended): a concrete insert, a concrete update
with a null refresh token preserving the stored one, and a concrete
update with a truthy refresh token replacing it. -/
theorem claim_C2_upsert_witness :
    store_credentials [] "a" ⟨some "t", some "r", none⟩ =
      [] ++ [⟨"a", encrypt (some "t"),
        if truthyOpt (some "r") then encrypt (some "r") else none, none⟩] ∧
    (store_credentials [⟨"a", some (encB "t"), some (encB "R"), none⟩] "a"
        ⟨some "t2", none, none⟩).find? (fun a => a.agent_id == "a") =
      some ⟨"a", encrypt (some "t2"),
        if truthyOpt (none : Option String) then encrypt none else some (encB "R"), none⟩ ∧
    (store_credentials [⟨"a", some (encB "t"), some (encB "R"), none⟩] "a"
        ⟨some "t2", some "R2", none⟩).find? (fun a => a.agent_id == "a") =
      some ⟨"a", encrypt (some "t2"),
        if truthyOpt (some "R2") then encrypt (some "R2") else some (encB "R"), none⟩ :=
  ⟨(claim_C2_upsert [] "a" ⟨some "t", some "r", none⟩).1 rfl,
   (claim_C2_upsert _ "a" ⟨some "t2", none, none⟩).2
      ⟨"a", some (encB "t"), some (encB "R"), none⟩ (by decide),
   (claim_C2_upsert _ "a" ⟨some "t2", some "R2", none⟩).2
      ⟨"a", some (encB "t"), some (encB "R"), none⟩ (by decide)⟩

/-- Round trip of the secret-data maps: encrypting every stringified
value and decrypting the stored map recovers the stringified values,
provided no stringified value is empty. -/
theorem decrypt_encrypt_secret_data (data : List (String × PyValue))
    (h : ∀ kv ∈ data, pyStr kv.2 ≠ "") :
    decrypt_secret_data (encrypt_secret_data data) =
      Except.ok (data.map (fun kv => (kv.1, some (pyStr kv.2)))) := by
  induction data with
  | nil => rfl
  | cons kv rest ih =>
    have h1 : pyStr kv.2 ≠ "" := h kv (by simp)
    have h2 : ∀ kv2 ∈ rest, pyStr kv2.2 ≠ "" := fun kv2 hm => h kv2 (by simp [hm])
    have henc : encrypt (some (pyStr kv.2)) = some (encB (pyStr kv.2)) := by
      simp [encrypt, h1]
    simp only [encrypt_secret_data, List.map_cons, decrypt_secret_data, henc,
      pyStrOfStored, decrypt_encB, bind, Except.bind]
    rw [show encrypt_secret_data rest = rest.map (fun kv => (kv.1, encrypt (some (pyStr kv.2)))) from rfl] at ih
    rw [ih h2]

/-- After an upsert the (agent, service) lookup finds a record whose
secret_data is exactly the freshly encrypted map. -/
theorem upsert_secret_find (db : SecretDb) (aid svc : String)
    (data : List (String × PyValue)) :
    ∃ rec, (upsert_secret db aid svc data).find?
        (fun s => s.agent_id == aid && s.service_name == svc) = some rec ∧
      rec.secret_data = encrypt_secret_data data := by
  unfold upsert_secret
  cases hfind : db.find? (fun s => s.agent_id == aid && s.service_name == svc) with
  | none =>
    exact ⟨_, find?_append_singleton _ db _ hfind (by simp), rfl⟩
  | some s0 =>
    refine ⟨⟨s0.agent_id, s0.service_name, encrypt_secret_data data⟩, ?_, rfl⟩
    rw [find?_map_update (fun s => s.agent_id == aid && s.service_name == svc)
      (fun s => ⟨s.agent_id, s.service_name, encrypt_secret_data data⟩) db (fun a ha => ha)]
    rw [hfind]
    rfl

/-- Claim C9 as amended: a secret stored with upsert_secret and read back
with get_secret round-trips through string coercion — every value v whose
Python string representation is non-empty comes back as str(v); a value
whose string representation is empty breaks the round trip (its
encryption is stored as null and reading back then raises). -/
theorem claim_C9_secret_roundtrip (db : SecretDb) (aid svc : String)
    (data : List (String × PyValue)) (h : ∀ kv ∈ data, pyStr kv.2 ≠ "") :
    get_secret (upsert_secret db aid svc data) aid svc =
      SecretGetResult.ok (data.map (fun kv => (kv.1, some (pyStr kv.2)))) := by
  obtain ⟨rec, hfind2, hdata⟩ := upsert_secret_find db aid svc data
  unfold get_secret
  rw [hfind2]
  simp only [hdata, decrypt_encrypt_secret_data data h]

/-- Counterexample to claim C9 as stated: storing the map with the single
value given by the empty string (str of it is empty, so its encryption is
null) and reading it back raises from decrypt — get_secret does not
return the stringified map. -/
theorem claim_C9_counterexample :
    get_secret (upsert_secret [] "a" "svc" [("k", PyValue.pstr "")]) "a" "svc" =
      SecretGetResult.raised ∧
    SecretGetResult.raised ≠ SecretGetResult.ok [("k", some "")] :=
  ⟨rfl, by decide⟩

/-- Witness for claim C9 (amended) at a concrete map of a string, an
integer, a boolean and a null — all non-empty after str coercion. -/
theorem claim_C9_secret_roundtrip_witness :
    get_secret (upsert_secret [] "a" "svc"
        [("s", PyValue.pstr "v"), ("n", PyValue.pint 3),
         ("b", PyValue.pbool true), ("z", PyValue.pnone)]) "a" "svc" =
      SecretGetResult.ok
        [("s", some "v"), ("n", some "3"), ("b", some "True"), ("z", some "None")] := by
  have := claim_C9_secret_roundtrip [] "a" "svc"
    [("s", PyValue.pstr "v"), ("n", PyValue.pint 3),
     ("b", PyValue.pbool true), ("z", PyValue.pnone)] (by decide)
  simpa [pyStr] using this

/-- Claim C7: end to end — exchanging a code for agent-1 persists the
tokens; an immediate resolve returns a valid credential with zero refresh
calls and an untouched store; once the clock passes the stored expiry,
the next resolve performs exactly one refresh, persists through the store
upsert, the persisted record carries the new expiry, and that new expiry
is strictly later than the previous one. -/
theorem claim_C7_end_to_end (xchg : String → Creds) (provider : Provider)
    (code a r : String) (e0 e1 : PyDateTime) (now1 now2 : Int) (resp : TokenResponse)
    (hx : xchg code = ⟨some a, some r, some e0⟩)
    (ha : a ≠ "") (hr : r ≠ "")
    (hv1 : credExpired (normalizeExpiry (some e0)) now1 = false)
    (hv2 : credExpired (normalizeExpiry (some e0)) now2 = true)
    (hprov : provider r = RefreshOutcome.ok resp)
    (hre : resp.expiry = some e1)
    (hv3 : credExpired (normalizeExpiry (some e1)) now2 = false) :
    exchange_code_with_code xchg [] "agent-1" code =
      (⟨some a, some r, some e0⟩,
       [⟨"agent-1", some (encB a), some (encB r), some e0⟩]) ∧
    get_valid_credentials provider now1
        [⟨"agent-1", some (encB a), some (encB r), some e0⟩] "agent-1" =
      Except.ok ⟨some ⟨some a, some r, normalizeExpiry (some e0)⟩,
        [⟨"agent-1", some (encB a), some (encB r), some e0⟩], 0⟩ ∧
    get_valid_credentials provider now2
        [⟨"agent-1", some (encB a), some (encB r), some e0⟩] "agent-1" =
      Except.ok ⟨some (refreshedCreds ⟨some a, some r, normalizeExpiry (some e0)⟩ resp),
        store_credentials [⟨"agent-1", some (encB a), some (encB r), some e0⟩] "agent-1"
          (refreshedCreds ⟨some a, some r, normalizeExpiry (some e0)⟩ resp), 1⟩ ∧
    ((store_credentials [⟨"agent-1", some (encB a), some (encB r), some e0⟩] "agent-1"
        (refreshedCreds ⟨some a, some r, normalizeExpiry (some e0)⟩ resp)).find?
      (fun x => x.agent_id == "agent-1")).map GmailAccount.expiry = some (some e1) ∧
    e0.instant < e1.instant := by
  have hfind1 : (([⟨"agent-1", some (encB a), some (encB r), some e0⟩] : Db).find?
      (fun x => x.agent_id == "agent-1")) =
      some ⟨"agent-1", some (encB a), some (encB r), some e0⟩ := by
    simp [List.find?]
  have htrB : truthyOpt (some (encB r)) = true := truthy_of_ne _ (encB_ne_empty r)
  have hdr2 : (if truthyOpt (some (encB r)) then decrypt (some (encB r))
      else Except.ok none) = Except.ok (some r) := by
    rw [if_pos htrB]; exact decrypt_encB r
  refine ⟨?_, ?_, ?_, ?_, ?_⟩
  · unfold exchange_code_with_code
    rw [hx]
    unfold store_credentials
    simp [encrypt, ha, hr, truthyOpt]
  · rw [resolve_found provider now1 _ "agent-1" _ (some a) (some r) hfind1
      (decrypt_encB a) hdr2]
    simp [hv1]
  · rw [resolve_found provider now2 _ "agent-1" _ (some a) (some r) hfind1
      (decrypt_encB a) hdr2]
    simp [hv2, truthy_of_ne r hr, hprov]
  · unfold store_credentials
    rw [hfind1]
    simp [refreshedCreds, hre, List.find?]
  · have h2 : e0.instant ≤ now2 := by
      have := hv2
      rw [credExpired_normalize] at this
      simpa using this
    have h3 : ¬ e1.instant ≤ now2 := by
      have := hv3
      rw [credExpired_normalize] at this
      simpa using this
    omega

/-- Witness for claim C7 at a concrete exchange endpoint, provider and
clock readings. -/
theorem claim_C7_end_to_end_witness :
    exchange_code_with_code (fun _ => ⟨some "a1", some "r1", some ⟨100, none⟩⟩) [] "agent-1" "c" =
      (⟨some "a1", some "r1", some ⟨100, none⟩⟩,
       [⟨"agent-1", some (encB "a1"), some (encB "r1"), some ⟨100, none⟩⟩]) ∧
    get_valid_credentials (fun _ => RefreshOutcome.ok ⟨"a2", none, some ⟨300, some 0⟩⟩) 0
        [⟨"agent-1", some (encB "a1"), some (encB "r1"), some ⟨100, none⟩⟩] "agent-1" =
      Except.ok ⟨some ⟨some "a1", some "r1", normalizeExpiry (some ⟨100, none⟩)⟩,
        [⟨"agent-1", some (encB "a1"), some (encB "r1"), some ⟨100, none⟩⟩], 0⟩ ∧
    get_valid_credentials (fun _ => RefreshOutcome.ok ⟨"a2", none, some ⟨300, some 0⟩⟩) 200
        [⟨"agent-1", some (encB "a1"), some (encB "r1"), some ⟨100, none⟩⟩] "agent-1" =
      Except.ok ⟨some (refreshedCreds ⟨some "a1", some "r1", normalizeExpiry (some ⟨100, none⟩)⟩
            ⟨"a2", none, some ⟨300, some 0⟩⟩),
        store_credentials [⟨"agent-1", some (encB "a1"), some (encB "r1"), some ⟨100, none⟩⟩]
          "agent-1" (refreshedCreds ⟨some "a1", some "r1", normalizeExpiry (some ⟨100, none⟩)⟩
            ⟨"a2", none, some ⟨300, some 0⟩⟩), 1⟩ ∧
    ((store_credentials [⟨"agent-1", some (encB "a1"), some (encB "r1"), some ⟨100, none⟩⟩]
        "agent-1" (refreshedCreds ⟨some "a1", some "r1", normalizeExpiry (some ⟨100, none⟩)⟩
          ⟨"a2", none, some ⟨300, some 0⟩⟩)).find?
      (fun x => x.agent_id == "agent-1")).map GmailAccount.expiry = some (some ⟨300, some 0⟩) ∧
    (⟨100, none⟩ : PyDateTime).instant < (⟨300, some 0⟩ : PyDateTime).instant :=
  claim_C7_end_to_end (fun _ => ⟨some "a1", some "r1", some ⟨100, none⟩⟩)
    (fun _ => RefreshOutcome.ok ⟨"a2", none, some ⟨300, some 0⟩⟩)
    "c" "a1" "r1" ⟨100, none⟩ ⟨300, some 0⟩ 0 200 ⟨"a2", none, some ⟨300, some 0⟩⟩
    rfl (by decide) (by decide) (by decide) (by decide) rfl rfl (by decide)

end GmailService
